import Mathlib

/-!
Verification of the cabine-api device-state reconciliation logic.

This file gives a shallow embedding of the convergence-polling core of the
repository (PcControlService, WolService, LifxService, WebhookController)
and proves properties of it.  Asynchronous collaborator calls (ping, SSH,
socket connect, LIFX HTTP API, WOL packet emission) are modelled by their
outcomes, passed in as parameters: a call that can reject is an
Except Unit value, a call that always resolves is a plain value.  Wall-clock
time is modelled deterministically: a sleep of d milliseconds advances the
clock by d, probe calls themselves take no time, and the duration consumed
by the wake-packet dispatch is an explicit parameter where it matters.
Loops are written with an explicit fuel argument large enough that fuel
exhaustion is unreachable (each iteration advances the clock by at least
one millisecond while the loop runs only below the deadline).
-/

namespace Cabine

/-- JS Math.round(t / 1000) for a nonnegative millisecond count t
(round half away from zero, which for nonnegative arguments is
floor((t + 500) / 1000)).  Source: pollForStatusChange computes
elapsedSeconds = Math.round((Date.now() - startTime) / 1000). -/
def jsRound1000 (t : Nat) : Nat := (t + 500) / 1000

/-- PcControlService.isPCOnline: a ping-library probe wrapped in
try/catch; an error resolves to false, otherwise the alive boolean is
returned. -/
def isPCOnlinePc (r : Except Unit Bool) : Bool :=
  match r with
  | .ok b => b
  | .error _ => false

/-- Result shape of PcControlService.pollForStatusChange (and of
PcControlService.wakePC / sleepPC): { success, attempts, isOnline }.
Note the attempts field is assigned elapsedSeconds by the source. -/
structure PollResult where
  success : Bool
  attempts : Nat
  isOnline : Bool
deriving DecidableEq, Repr

/-- The while loop of PcControlService.pollForStatusChange.  State: fuel,
elapsed milliseconds t, number of poll samples taken so far.  The probe
argument gives the outcome of the k-th isPCOnline call.  Each iteration
first sleeps pollIntervalMs, then samples.  On deadline exhaustion the
source takes one extra isPCOnline sample for the reported final status.
Returns (result, samples taken, elapsed ms) where the last two components
are instrumentation not returned by the source function. -/
def pollGo (expected : Bool) (timeoutMs intervalMs : Nat)
    (probe : Nat → Except Unit Bool) :
    Nat → Nat → Nat → PollResult × Nat × Nat
  | 0, t, samples =>
      (⟨false, jsRound1000 t, isPCOnlinePc (probe (samples + 1))⟩, samples, t)
  | fuel + 1, t, samples =>
      if t < timeoutMs then
        let t2 := t + intervalMs
        let s2 := samples + 1
        let cur := isPCOnlinePc (probe s2)
        if cur = expected then
          (⟨true, jsRound1000 t2, cur⟩, s2, t2)
        else
          pollGo expected timeoutMs intervalMs probe fuel t2 s2
      else
        (⟨false, jsRound1000 t, isPCOnlinePc (probe (samples + 1))⟩, samples, t)

/-- PcControlService.pollForStatusChange(expectedOnline, timeoutMs,
pollIntervalMs); invoked by the source with defaults 30000 and 1000.
The clock starts when pollForStatusChange is entered, which in the
source is just after the trigger has been dispatched. -/
def pollForStatusChange (expected : Bool) (timeoutMs intervalMs : Nat)
    (probe : Nat → Except Unit Bool) : PollResult :=
  (pollGo expected timeoutMs intervalMs probe (timeoutMs + 1) 0 0).1

/-- Instrumentation: number of poll samples the loop took. -/
def pollSamplesTaken (expected : Bool) (timeoutMs intervalMs : Nat)
    (probe : Nat → Except Unit Bool) : Nat :=
  (pollGo expected timeoutMs intervalMs probe (timeoutMs + 1) 0 0).2.1

/-- Instrumentation: elapsed milliseconds at the moment the loop returned. -/
def pollElapsedMs (expected : Bool) (timeoutMs intervalMs : Nat)
    (probe : Nat → Except Unit Bool) : Nat :=
  (pollGo expected timeoutMs intervalMs probe (timeoutMs + 1) 0 0).2.2

/-- PcControlService.wakePC: wol.wake with an error-first callback; on a
transmission error the surrounding Promise is rejected (modelled as
Except.error), otherwise pollForStatusChange(true) runs with its default
parameters and its result resolves the Promise. -/
def pcWakePC (wolErr : Bool) (probe : Nat → Except Unit Bool) :
    Except Unit PollResult :=
  if wolErr then .error () else .ok (pollForStatusChange true 30000 1000 probe)

/-- Result shape of WolService.wakePC: { success, elapsedMs, attempts }. -/
structure WakePCResult where
  success : Bool
  elapsedMs : Nat
  attempts : Nat
deriving DecidableEq, Repr

/-- Outcomes of the four reachability strategies tried by
WolService.robustOnlineCheck, in the order the source tries them:
SSH handshake, ping library, TCP connect to port 3389, system ping.
Each may error (the source wraps each in try/catch). -/
structure StrategyOutcomes where
  ssh : Except Unit Bool
  pingLib : Except Unit Bool
  rdpPort : Except Unit Bool
  sysPing : Except Unit Bool

/-- How one strategy outcome is observed inside robustOnlineCheck: an
error is caught and the strategy simply does not report the PC online. -/
def stratObserve : Except Unit Bool → Bool
  | .ok b => b
  | .error _ => false

/-- WolService.robustOnlineCheck: try SSH, then the ping library, then a
socket connect to the RDP port, then the system ping command; the first
strategy observed positive returns true immediately; if all four are
negative or errored the check returns false. -/
def robustOnlineCheck (s : StrategyOutcomes) : Bool :=
  if stratObserve s.ssh then true
  else if stratObserve s.pingLib then true
  else if stratObserve s.rdpPort then true
  else if stratObserve s.sysPing then true
  else false

/-- The while loop of WolService.wakePC (the verification poll loop).
State: fuel, elapsed ms t (since wakePC was entered), attempts counter.
Each iteration increments attempts, samples robustOnlineCheck (outcome of
the k-th check given by probe k), returns on success, otherwise sleeps
1000 ms.  Returns (result, number of probe calls made), the second
component being instrumentation. -/
def wolGo (probe : Nat → Bool) (maxWaitTime : Nat) :
    Nat → Nat → Nat → WakePCResult × Nat
  | 0, t, attempts => (⟨false, t, attempts⟩, 0)
  | fuel + 1, t, attempts =>
      if t < maxWaitTime then
        let a2 := attempts + 1
        if probe a2 then
          (⟨true, t, a2⟩, 1)
        else
          let r := wolGo probe maxWaitTime fuel (t + 1000) a2
          (r.1, r.2 + 1)
      else (⟨false, t, attempts⟩, 0)

/-- The WolService.wakePC poll loop run from a fresh clock: the loop of
lines checking robustOnlineCheck once per second until maxWaitTime. -/
def wolPollLoop (probe : Nat → Bool) (maxWaitTime : Nat) : WakePCResult :=
  (wolGo probe maxWaitTime (maxWaitTime + 1) 0 0).1

/-- Full outcome of a WolService.wakePC invocation, instrumented with
whether sendWolPacket was invoked and how many poll samples were taken. -/
structure WolWakeOutcome where
  result : WakePCResult
  wolSent : Bool
  samplesTaken : Nat
deriving DecidableEq, Repr

/-- WolService.wakePC(maxWaitTime): the clock starts on entry; an
immediate online pre-check returns { success: true, elapsedMs: 0,
attempts: 1 } without dispatching the wake packet; otherwise
sendWolPacket runs inside the try block (consuming dispatchMs of clock
time), and if it rejects the catch block returns a failure result
immediately, without entering the poll loop; if it resolves, the poll
loop runs starting at clock dispatchMs. -/
def wolWakePC (pre : Bool) (wolOk : Bool) (dispatchMs : Nat)
    (probe : Nat → Bool) (maxWaitTime : Nat) : WolWakeOutcome :=
  if pre then
    ⟨⟨true, 0, 1⟩, false, 0⟩
  else if wolOk then
    let r := wolGo probe maxWaitTime (maxWaitTime + 1) dispatchMs 0
    ⟨r.1, true, r.2⟩
  else
    ⟨⟨false, dispatchMs, 0⟩, true, 0⟩

/-- The while loop of WolService.sleepPC: every 5000 ms, call the ping
library (alive k is the outcome of the k-th ping.promise.probe call,
which may reject); return true as soon as a probe resolves with the PC
not alive; give up after 120000 ms.  A probe rejection inside the loop
escapes to sleepPC's outer catch, which rethrows it to the caller,
modelled as Except.error. -/
def wolSleepGo (alive : Nat → Except Unit Bool) : Nat → Nat → Nat → Except Unit Bool
  | 0, _, _ => .ok false
  | fuel + 1, t, k =>
      if t < 120000 then
        match alive k with
        | .error _ => .error ()
        | .ok a =>
            if a = false then .ok true
            else wolSleepGo alive fuel (t + 5000) (k + 1)
      else .ok false

/-- WolService.sleepPC: if the pre-check finds the PC already offline,
return true at once; otherwise sendSleepCommand is attempted inside its
own try/catch whose failure is only logged (cmdOk does not influence
control flow), and the offline poll loop runs; a ping rejection inside
that loop is rethrown by the outer catch. -/
def wolSleepPC (pre : Bool) (cmdOk : Bool) (alive : Nat → Except Unit Bool) :
    Except Unit Bool :=
  if pre = false then .ok true
  else
    let _dispatched := cmdOk
    wolSleepGo alive 120001 0 1

/-- LifxService Light interface: { id, name, group?, tags? }. -/
structure Light where
  id : String
  name : String
  group : Option String
  tags : List String
deriving DecidableEq, Repr

/-- The LifxService light registry: a JS Map from light name to Light,
modelled as a list in insertion order.  Map.set semantics: setting an
existing key replaces its value in place, otherwise the entry is
appended. -/
def mapSet (m : List Light) (l : Light) : List Light :=
  match m with
  | [] => [l]
  | x :: xs => if x.name = l.name then l :: xs else x :: mapSet xs l

/-- LifxService.addLight: a light with an empty id is rejected (only
logged); otherwise the registry entry under light.name is set. -/
def addLight (m : List Light) (l : Light) : List Light :=
  if l.id = "" then m else mapSet m l

/-- The registry key list, in order. -/
def names (m : List Light) : List String := m.map Light.name

/-- LifxService.getLight: Map.get by name. -/
def getLight : List Light → String → Option Light
  | [], _ => none
  | x :: xs, n => if x.name = n then some x else getLight xs n

/-- LifxService.getLightsByGroup: all registered lights whose group
equals the requested group name. -/
def getLightsByGroup (m : List Light) (g : String) : List Light :=
  m.filter (fun l => l.group = some g)

/-- LifxService.setLightStateById: an axios PUT whose outcome is either a
status code or a thrown error (api gives the outcome per light id);
2xx yields true, any other status yields false, and the catch block turns
an error into false. -/
def setLightStateById (api : String → Except Unit Nat) (lightId : String) : Bool :=
  match api lightId with
  | .ok status => decide (200 ≤ status) && decide (status < 300)
  | .error _ => false

/-- LifxService.setAllLightsState: one setLightStateById per registered
light, results collected under the light names. -/
def setAllLightsState (m : List Light) (api : String → Except Unit Nat) :
    List (String × Bool) :=
  m.map (fun l => (l.name, setLightStateById api l.id))

/-- LifxService.setGroupState: restrict to the lights of the group; an
empty selection returns the empty result map at once; otherwise one
setLightStateById per group light. -/
def setGroupState (m : List Light) (g : String) (api : String → Except Unit Nat) :
    List (String × Bool) :=
  let groupLights := getLightsByGroup m g
  if groupLights.isEmpty then []
  else groupLights.map (fun l => (l.name, setLightStateById api l.id))

/-- Outcome of a Promise handed to Promise.allSettled: fulfilled with a
value, or rejected. -/
inductive Settled (α : Type) where
  | fulfilled (value : α)
  | rejected
deriving DecidableEq, Repr

/-- The controller derives pcSuccess from a settled outcome: fulfilled
and value.success. -/
def settledPcSuccess : Settled PollResult → Bool
  | .fulfilled v => v.success
  | .rejected => false

/-- The controller derives pcData from a settled outcome, substituting
{ success: false, attempts: 0, isOnline: false } for a rejection. -/
def settledPc : Settled PollResult → PollResult
  | .fulfilled v => v
  | .rejected => ⟨false, 0, false⟩

/-- The controller derives lightsSuccess: fulfilled and the boolean value. -/
def settledLights : Settled Bool → Bool
  | .fulfilled b => b
  | .rejected => false

/-- The pc part of the arrive response body. -/
structure PcReport where
  success : Bool
  wasAlreadyOnline : Bool
  waitTimeSeconds : Nat
deriving DecidableEq, Repr

/-- The lights part of the arrive response body. -/
structure LightsReport where
  success : Bool
deriving DecidableEq, Repr

/-- The arrive response body: top-level success plus the two attributed
sub-results. -/
structure ArriveResponse where
  success : Bool
  pc : PcReport
  lights : LightsReport
deriving DecidableEq, Repr

/-- WebhookController.arrive: a pre-check of isPCOnline selects either an
already-fulfilled { success: true, attempts: 0, isOnline: true } or the
wakePC promise; that and turnOnAll are awaited with Promise.allSettled;
the response always reports status 200 with success true and both
sub-results. -/
def arrive (isPCOnline : Bool) (wakeOutcome : Settled PollResult)
    (lightsOutcome : Settled Bool) : ArriveResponse :=
  let pcResult : Settled PollResult :=
    if isPCOnline then .fulfilled ⟨true, 0, true⟩ else wakeOutcome
  let pcSuccess := settledPcSuccess pcResult
  let pcData := settledPc pcResult
  let lightsSuccess := settledLights lightsOutcome
  { success := true
    pc := { success := pcSuccess
            wasAlreadyOnline := isPCOnline
            waitTimeSeconds := pcData.attempts }
    lights := { success := lightsSuccess } }

/-- The arriveAtOffice response, instrumented with whether the
fallback-to-all-lights call ran and what its (discarded) results were. -/
structure ArriveOfficeOutcome where
  success : Bool
  wolSent : WakePCResult
  lightResults : List (String × Bool)
  fallbackInvoked : Bool
  fallbackResults : Option (List (String × Bool))
deriving DecidableEq, Repr

/-- WebhookController.arriveAtOffice: wolService.wakePC and
turnOnGroup('office') run via Promise.all (neither rejects: both services
absorb their errors); if the group results contain zero successes,
turnOnAll runs once; the response reports the wakePC result and the
original group result map. -/
def arriveAtOffice (reg : List Light) (wol : WakePCResult)
    (api : String → Except Unit Nat) : ArriveOfficeOutcome :=
  let lightResults := setGroupState reg "office" api
  let successCount := (lightResults.filter (fun e => e.2 = true)).length
  let fb : Bool := successCount == 0
  { success := true
    wolSent := wol
    lightResults := lightResults
    fallbackInvoked := fb
    fallbackResults := if fb then some (setAllLightsState reg api) else none }

/-! Helper lemmas about the PcControlService poll loop. -/

/-- The attempts field the loop returns is always the rounded elapsed
seconds, on both the success and the timeout path. -/
theorem pollGo_attempts_round (expected : Bool) (timeoutMs intervalMs : Nat)
    (probe : Nat → Except Unit Bool) :
    ∀ fuel t samples,
      (pollGo expected timeoutMs intervalMs probe fuel t samples).1.attempts
        = jsRound1000 (pollGo expected timeoutMs intervalMs probe fuel t samples).2.2 := by
  intro fuel
  induction fuel with
  | zero => intro t s; simp [pollGo]
  | succ n ih =>
    intro t s
    by_cases h1 : t < timeoutMs
    · by_cases h2 : isPCOnlinePc (probe (s + 1)) = expected
      · simp [pollGo, h1, h2]
      · simpa [pollGo, h1, h2] using ih (t + intervalMs) (s + 1)
    · simp [pollGo, h1]

/-- If the loop reports success, the recorded final state is the sample
that matched the expectation. -/
theorem pollGo_success_isOnline (expected : Bool) (timeoutMs intervalMs : Nat)
    (probe : Nat → Except Unit Bool) :
    ∀ fuel t samples,
      (pollGo expected timeoutMs intervalMs probe fuel t samples).1.success = true →
      (pollGo expected timeoutMs intervalMs probe fuel t samples).1.isOnline = expected := by
  intro fuel
  induction fuel with
  | zero => intro t s h; simp [pollGo] at h
  | succ n ih =>
    intro t s h
    by_cases h1 : t < timeoutMs
    · by_cases h2 : isPCOnlinePc (probe (s + 1)) = expected
      · simp [pollGo, h1, h2]
      · simp only [pollGo, if_pos h1, if_neg h2] at h ⊢
        exact ih (t + intervalMs) (s + 1) h
    · simp [pollGo, h1] at h

/-- If the loop reports failure, the deadline had been reached (given
enough fuel, which the top-level entry points always supply). -/
theorem pollGo_failure_deadline (expected : Bool) (timeoutMs intervalMs : Nat)
    (probe : Nat → Except Unit Bool) (hi : 1 ≤ intervalMs) :
    ∀ fuel t samples, timeoutMs ≤ t + fuel →
      (pollGo expected timeoutMs intervalMs probe fuel t samples).1.success = false →
      timeoutMs ≤ (pollGo expected timeoutMs intervalMs probe fuel t samples).2.2 := by
  intro fuel
  induction fuel with
  | zero => intro t s h _; simpa [pollGo] using h
  | succ n ih =>
    intro t s h hf
    by_cases h1 : t < timeoutMs
    · by_cases h2 : isPCOnlinePc (probe (s + 1)) = expected
      · simp [pollGo, h1, h2] at hf
      · simp only [pollGo, if_pos h1, if_neg h2] at hf ⊢
        exact ih (t + intervalMs) (s + 1) (by omega) hf
    · simp only [pollGo, if_neg h1]
      omega

/-- If no sample ever matches the expectation, the loop fails exactly at
the deadline: at or after it, and strictly within one interval past it. -/
theorem pollGo_never (expected : Bool) (timeoutMs intervalMs : Nat)
    (probe : Nat → Except Unit Bool) (hi : 1 ≤ intervalMs)
    (hp : ∀ k, isPCOnlinePc (probe k) ≠ expected) :
    ∀ fuel t samples, timeoutMs ≤ t + fuel → t < timeoutMs + intervalMs →
      (pollGo expected timeoutMs intervalMs probe fuel t samples).1.success = false
      ∧ timeoutMs ≤ (pollGo expected timeoutMs intervalMs probe fuel t samples).2.2
      ∧ (pollGo expected timeoutMs intervalMs probe fuel t samples).2.2
          < timeoutMs + intervalMs := by
  intro fuel
  induction fuel with
  | zero =>
    intro t s h ht
    refine ⟨by simp [pollGo], ?_, ?_⟩ <;> simp [pollGo] <;> omega
  | succ n ih =>
    intro t s h ht
    by_cases h1 : t < timeoutMs
    · have h2 : ¬ (isPCOnlinePc (probe (s + 1)) = expected) := hp (s + 1)
      simp only [pollGo, if_pos h1, if_neg h2]
      exact ih (t + intervalMs) (s + 1) (by omega) (by omega)
    · refine ⟨by simp [pollGo, h1], ?_, ?_⟩ <;> simp [pollGo, h1] <;> omega

/-- The loop is insensitive to how a probe outcome failed: only the
observed boolean after error absorption matters. -/
theorem pollGo_congr (expected : Bool) (timeoutMs intervalMs : Nat)
    (p q : Nat → Except Unit Bool)
    (h : ∀ k, isPCOnlinePc (p k) = isPCOnlinePc (q k)) :
    ∀ fuel t samples,
      pollGo expected timeoutMs intervalMs p fuel t samples
        = pollGo expected timeoutMs intervalMs q fuel t samples := by
  intro fuel
  induction fuel with
  | zero => intro t s; simp [pollGo, h (s + 1)]
  | succ n ih =>
    intro t s
    by_cases h1 : t < timeoutMs
    · simp only [pollGo, if_pos h1, h (s + 1)]
      by_cases h2 : isPCOnlinePc (q (s + 1)) = expected
      · simp [h2]
      · simp only [if_neg h2]
        exact ih (t + intervalMs) (s + 1)
    · simp [pollGo, h1, h (s + 1)]

/-! Helper lemmas about the WolService.wakePC poll loop. -/

/-- The attempts counter the loop returns equals the number of
robustOnlineCheck samples taken beyond the initial counter value. -/
theorem wolGo_attempts_calls (probe : Nat → Bool) (maxWaitTime : Nat) :
    ∀ fuel t a,
      (wolGo probe maxWaitTime fuel t a).1.attempts
        = a + (wolGo probe maxWaitTime fuel t a).2 := by
  intro fuel
  induction fuel with
  | zero => intro t a; simp [wolGo]
  | succ n ih =>
    intro t a
    by_cases h1 : t < maxWaitTime
    · by_cases h2 : probe (a + 1) = true
      · simp [wolGo, h1, h2]
      · simp only [wolGo, if_pos h1, if_neg h2]
        have := ih (t + 1000) (a + 1)
        omega
    · simp [wolGo, h1]

/-- On success the sample numbered by the returned attempts counter is
the one that observed the PC online. -/
theorem wolGo_success_probe (probe : Nat → Bool) (maxWaitTime : Nat) :
    ∀ fuel t a,
      (wolGo probe maxWaitTime fuel t a).1.success = true →
      probe (wolGo probe maxWaitTime fuel t a).1.attempts = true := by
  intro fuel
  induction fuel with
  | zero => intro t a h; simp [wolGo] at h
  | succ n ih =>
    intro t a h
    by_cases h1 : t < maxWaitTime
    · by_cases h2 : probe (a + 1) = true
      · simp [wolGo, h1, h2]
      · simp only [wolGo, if_pos h1, if_neg h2] at h ⊢
        exact ih (t + 1000) (a + 1) h
    · simp [wolGo, h1] at h

/-- On failure, the deadline had been reached (with sufficient fuel). -/
theorem wolGo_failure_deadline (probe : Nat → Bool) (maxWaitTime : Nat) :
    ∀ fuel t a, maxWaitTime ≤ t + fuel →
      (wolGo probe maxWaitTime fuel t a).1.success = false →
      maxWaitTime ≤ (wolGo probe maxWaitTime fuel t a).1.elapsedMs := by
  intro fuel
  induction fuel with
  | zero => intro t a h _; simpa [wolGo] using h
  | succ n ih =>
    intro t a h hf
    by_cases h1 : t < maxWaitTime
    · by_cases h2 : probe (a + 1) = true
      · simp [wolGo, h1, h2] at hf
      · simp only [wolGo, if_pos h1, if_neg h2] at hf ⊢
        exact ih (t + 1000) (a + 1) (by omega) hf
    · simp only [wolGo, if_neg h1]
      omega

/-- The elapsed time the loop reports never precedes its entry time:
elapsed time accumulates from the clock the caller started. -/
theorem wolGo_elapsed_ge (probe : Nat → Bool) (maxWaitTime : Nat) :
    ∀ fuel t a, t ≤ (wolGo probe maxWaitTime fuel t a).1.elapsedMs := by
  intro fuel
  induction fuel with
  | zero => intro t a; simp [wolGo]
  | succ n ih =>
    intro t a
    by_cases h1 : t < maxWaitTime
    · by_cases h2 : probe (a + 1) = true
      · simp [wolGo, h1, h2]
      · simp only [wolGo, if_pos h1, if_neg h2]
        have := ih (t + 1000) (a + 1)
        omega
    · simp [wolGo, h1]

/-- If no sample ever observes the PC online, the loop fails exactly at
the deadline: at or after it, and strictly within one 1000 ms interval
past it. -/
theorem wolGo_never (probe : Nat → Bool) (maxWaitTime : Nat)
    (hp : ∀ k, probe k = false) :
    ∀ fuel t a, maxWaitTime ≤ t + fuel → t < maxWaitTime + 1000 →
      (wolGo probe maxWaitTime fuel t a).1.success = false
      ∧ maxWaitTime ≤ (wolGo probe maxWaitTime fuel t a).1.elapsedMs
      ∧ (wolGo probe maxWaitTime fuel t a).1.elapsedMs < maxWaitTime + 1000 := by
  intro fuel
  induction fuel with
  | zero =>
    intro t a h ht
    refine ⟨by simp [wolGo], ?_, ?_⟩ <;> simp [wolGo] <;> omega
  | succ n ih =>
    intro t a h ht
    by_cases h1 : t < maxWaitTime
    · have h2 : ¬ (probe (a + 1) = true) := by simp [hp (a + 1)]
      simp only [wolGo, if_pos h1, if_neg h2]
      exact ih (t + 1000) (a + 1) (by omega) (by omega)
    · refine ⟨by simp [wolGo, h1], ?_, ?_⟩ <;> simp [wolGo, h1] <;> omega

/-- A ping rejection at the current loop position escapes the
WolService.sleepPC poll loop immediately. -/
theorem wolSleepGo_first_error (alive : Nat → Except Unit Bool) (fuel t k : Nat)
    (ht : t < 120000) (h : alive k = Except.error ()) :
    wolSleepGo alive (fuel + 1) t k = Except.error () := by
  simp [wolSleepGo, ht, h]

/-! Helper lemmas about the LifxService registry. -/

/-- Membership in the key list after a Map.set. -/
theorem mem_names_mapSet (l : Light) :
    ∀ m y, y ∈ names (mapSet m l) ↔ y = l.name ∨ y ∈ names m := by
  intro m
  induction m with
  | nil => intro y; simp [mapSet, names]
  | cons x xs ih =>
    intro y
    by_cases h : x.name = l.name
    · simp [mapSet, names, h]
    · simp only [mapSet, if_neg h, names, List.map_cons, List.mem_cons]
      rw [show (xs.map Light.name = names xs) from rfl] at *
      constructor
      · rintro (hy | hy)
        · tauto
        · rcases (ih y).mp hy with hy | hy <;> tauto
      · rintro (hy | hy | hy)
        · exact Or.inr ((ih y).mpr (Or.inl hy))
        · tauto
        · exact Or.inr ((ih y).mpr (Or.inr hy))

/-- Map.set preserves distinctness of the keys. -/
theorem nodup_names_mapSet (l : Light) :
    ∀ m, (names m).Nodup → (names (mapSet m l)).Nodup := by
  intro m
  induction m with
  | nil => intro _; simp [mapSet, names]
  | cons x xs ih =>
    intro h
    simp only [names, List.map_cons, List.nodup_cons] at h
    by_cases hx : x.name = l.name
    · simp only [mapSet, if_pos hx, names, List.map_cons, List.nodup_cons]
      exact ⟨by rw [← hx]; exact h.1, h.2⟩
    · simp only [mapSet, if_neg hx, names, List.map_cons, List.nodup_cons]
      refine ⟨?_, ih h.2⟩
      intro hmem
      rcases (mem_names_mapSet l xs x.name).mp hmem with hy | hy
      · exact hx hy
      · exact h.1 hy

/-- Map.set followed by Map.get on the same key yields the new value,
regardless of what was stored before. -/
theorem getLight_mapSet_self (l : Light) :
    ∀ m, getLight (mapSet m l) l.name = some l := by
  intro m
  induction m with
  | nil => simp [mapSet, getLight]
  | cons x xs ih =>
    by_cases h : x.name = l.name
    · simp [mapSet, if_pos h, getLight]
    · simp only [mapSet, if_neg h, getLight, if_neg h]
      exact ih

/-- Map.set on a key already present leaves the key list unchanged: the
entry is replaced in place, no duplicate is created. -/
theorem names_mapSet_of_mem (l : Light) :
    ∀ m, l.name ∈ names m → names (mapSet m l) = names m := by
  intro m
  induction m with
  | nil => intro h; simp [names] at h
  | cons x xs ih =>
    intro h
    by_cases hx : x.name = l.name
    · simp [mapSet, if_pos hx, names, hx]
    · simp only [names, List.map_cons, List.mem_cons] at h
      rcases h with h | h
      · exact absurd h.symm hx
      · simp only [mapSet, if_neg hx, names, List.map_cons]
        rw [show (List.map Light.name (mapSet xs l) = names (mapSet xs l)) from rfl,
          ih h]
        rfl

/-! Claim theorems. -/

/-- C1: for every invocation of the convergence polling loops
(PcControlService.pollForStatusChange and the WolService.wakePC poll
loop), a result with success true records a final observed state equal to
the requested expected state (for the wakePC loop: the sample numbered by
the returned attempts counter observed the PC online), and a result with
success false arises only once the elapsed time has reached the
deadline. -/
theorem converged_result_invariant (expected : Bool) (timeoutMs intervalMs maxWait : Nat)
    (probe : Nat → Except Unit Bool) (wprobe : Nat → Bool)
    (hi : 1 ≤ intervalMs) :
    ((pollForStatusChange expected timeoutMs intervalMs probe).success = true →
      (pollForStatusChange expected timeoutMs intervalMs probe).isOnline = expected)
    ∧ ((pollForStatusChange expected timeoutMs intervalMs probe).success = false →
      timeoutMs ≤ pollElapsedMs expected timeoutMs intervalMs probe)
    ∧ ((wolPollLoop wprobe maxWait).success = true →
      wprobe (wolPollLoop wprobe maxWait).attempts = true)
    ∧ ((wolPollLoop wprobe maxWait).success = false →
      maxWait ≤ (wolPollLoop wprobe maxWait).elapsedMs) := by
  refine ⟨?_, ?_, ?_, ?_⟩
  · exact pollGo_success_isOnline expected timeoutMs intervalMs probe (timeoutMs + 1) 0 0
  · exact pollGo_failure_deadline expected timeoutMs intervalMs probe hi
      (timeoutMs + 1) 0 0 (by omega)
  · exact wolGo_success_probe wprobe maxWait (maxWait + 1) 0 0
  · exact wolGo_failure_deadline wprobe maxWait (maxWait + 1) 0 0 (by omega)

/-- Witness for C1 at a concrete instance. -/
theorem converged_result_invariant_witness :
    (1 : Nat) ≤ 1000
    ∧ (((pollForStatusChange true 2000 1000 (fun _ => Except.ok true)).success = true →
        (pollForStatusChange true 2000 1000 (fun _ => Except.ok true)).isOnline = true)
      ∧ ((pollForStatusChange true 2000 1000 (fun _ => Except.ok true)).success = false →
        2000 ≤ pollElapsedMs true 2000 1000 (fun _ => Except.ok true))
      ∧ ((wolPollLoop (fun _ => true) 2000).success = true →
        true = true)
      ∧ ((wolPollLoop (fun _ => true) 2000).success = false →
        2000 ≤ (wolPollLoop (fun _ => true) 2000).elapsedMs)) :=
  ⟨by decide,
   converged_result_invariant true 2000 1000 2000
     (fun _ => Except.ok true) (fun _ => true) (by decide)⟩

/-- C2 counterexample: when the pre-check already observes the PC online,
WolService.wakePC returns attempts = 1, not attempts = 0 as claimed. -/
theorem wake_precheck_attempts_ne_zero :
    ¬ (wolWakePC true true 0 (fun _ => true) 60000).result.attempts = 0 := by
  decide

/-- C2 amended: when the pre-check already observes the expected state,
WolService.wakePC returns success true with elapsedMs = 0 and the
sentinel attempt count 1, takes no poll samples, and never dispatches the
wake packet. -/
theorem wake_precheck_sentinel (wolOk : Bool) (dispatchMs maxWait : Nat)
    (probe : Nat → Bool) :
    wolWakePC true wolOk dispatchMs probe maxWait = ⟨⟨true, 0, 1⟩, false, 0⟩ := rfl

/-- C3 counterexample: with a failing wake-packet dispatch,
WolService.wakePC takes zero poll samples and returns success false, even
though its polling loop would have converged on the very first sample. -/
theorem wake_dispatch_failure_skips_poll :
    (wolWakePC false false 0 (fun _ => true) 60000).samplesTaken = 0
    ∧ (wolWakePC false false 0 (fun _ => true) 60000).result.success = false
    ∧ (wolPollLoop (fun _ => true) 60000).success = true := by
  refine ⟨rfl, rfl, ?_⟩
  decide

/-- C3 amended: a suspend-command dispatch failure does not abort
WolService.sleepPC, whose polling proceeds identically; but a wake-packet
dispatch failure makes WolService.wakePC return an immediate well-formed
failure result (success false, attempts 0, no exception) without running
its polling loop. -/
theorem dispatch_failure_handling (alive : Nat → Except Unit Bool)
    (dispatchMs maxWait : Nat) (probe : Nat → Bool) :
    wolSleepPC true false alive = wolSleepPC true true alive
    ∧ (wolWakePC false false dispatchMs probe maxWait).result = ⟨false, dispatchMs, 0⟩
    ∧ (wolWakePC false false dispatchMs probe maxWait).samplesTaken = 0
    ∧ (wolWakePC false false dispatchMs probe maxWait).wolSent = true :=
  ⟨rfl, rfl, rfl, rfl⟩

/-- C4 counterexample: a pollForStatusChange invocation with a 2000 ms
interval that converges on its first sample returns attempts = 2 (the
rounded elapsed seconds) although exactly one poll sample was taken. -/
theorem attempts_field_not_sample_count :
    pollSamplesTaken true 30000 2000 (fun _ => Except.ok true) = 1
    ∧ (pollForStatusChange true 30000 2000 (fun _ => Except.ok true)).attempts = 2 := by
  refine ⟨?_, ?_⟩ <;> decide

/-- C4 amended: PcControlService.pollForStatusChange returns, in its
attempts field, the rounded elapsed seconds (its clock starting just
after the trigger was dispatched), not the sample count; WolService.wakePC
returns the true sample count in attempts but measures elapsedMs from
invocation start, so its elapsed time includes the pre-check and
wake-packet dispatch duration. -/
theorem attempts_elapsed_semantics (expected : Bool)
    (timeoutMs intervalMs dispatchMs maxWait : Nat)
    (probe : Nat → Except Unit Bool) (wprobe : Nat → Bool) :
    (pollForStatusChange expected timeoutMs intervalMs probe).attempts
      = jsRound1000 (pollElapsedMs expected timeoutMs intervalMs probe)
    ∧ (wolWakePC false true dispatchMs wprobe maxWait).result.attempts
      = (wolWakePC false true dispatchMs wprobe maxWait).samplesTaken
    ∧ dispatchMs ≤ (wolWakePC false true dispatchMs wprobe maxWait).result.elapsedMs := by
  refine ⟨pollGo_attempts_round expected timeoutMs intervalMs probe (timeoutMs + 1) 0 0,
    ?_, ?_⟩
  · have := wolGo_attempts_calls wprobe maxWait (maxWait + 1) dispatchMs 0
    simp only [wolWakePC, if_neg Bool.false_ne_true, if_pos rfl]
    simpa using this
  · have := wolGo_elapsed_ge wprobe maxWait (maxWait + 1) dispatchMs 0
    simp only [wolWakePC, if_neg Bool.false_ne_true, if_pos rfl]
    simpa using this

/-- C5: if no sample ever observes the expected state, both polling loops
return success false exactly when the accumulated elapsed time reaches the
deadline, never earlier, and never one full interval or more past it; in
the concrete scenario with deadline 5000 ms and interval 1000 ms both
loops return success false with five samples and 5000 ms elapsed. -/
theorem never_converge_deadline (expected : Bool) (timeoutMs intervalMs maxWait : Nat)
    (probe : Nat → Except Unit Bool) (wprobe : Nat → Bool)
    (hi : 1 ≤ intervalMs)
    (hp : ∀ k, isPCOnlinePc (probe k) ≠ expected)
    (hw : ∀ k, wprobe k = false) :
    ((pollForStatusChange expected timeoutMs intervalMs probe).success = false
      ∧ timeoutMs ≤ pollElapsedMs expected timeoutMs intervalMs probe
      ∧ pollElapsedMs expected timeoutMs intervalMs probe < timeoutMs + intervalMs)
    ∧ ((wolPollLoop wprobe maxWait).success = false
      ∧ maxWait ≤ (wolPollLoop wprobe maxWait).elapsedMs
      ∧ (wolPollLoop wprobe maxWait).elapsedMs < maxWait + 1000)
    ∧ wolPollLoop (fun _ => false) 5000 = ⟨false, 5000, 5⟩
    ∧ pollForStatusChange true 5000 1000 (fun _ => Except.ok false) = ⟨false, 5, false⟩ := by
  refine ⟨?_, ?_, by decide, by decide⟩
  · exact pollGo_never expected timeoutMs intervalMs probe hi hp
      (timeoutMs + 1) 0 0 (by omega) (by omega)
  · exact wolGo_never wprobe maxWait hw (maxWait + 1) 0 0 (by omega) (by omega)

/-- Witness for C5 at a concrete instance. -/
theorem never_converge_deadline_witness :
    (1 : Nat) ≤ 1000
    ∧ (∀ k : Nat, isPCOnlinePc ((fun _ => (Except.ok false : Except Unit Bool)) k) ≠ true)
    ∧ (∀ k : Nat, (fun _ : Nat => false) k = false)
    ∧ (pollForStatusChange true 3000 1000 (fun _ => Except.ok false)).success = false :=
  ⟨by decide, by intro k; simp [isPCOnlinePc], fun _ => rfl,
   (never_converge_deadline true 3000 1000 3000
      (fun _ => Except.ok false) (fun _ => false)
      (by decide) (by intro k; simp [isPCOnlinePc]) (fun _ => rfl)).1.1⟩

/-- C6: robustOnlineCheck tries its strategies in the fixed order SSH,
ping library, TCP port, system ping; a positive first strategy
short-circuits the rest; the check equals the ordered disjunction of the
observed strategy booleans; it is false exactly when every strategy was
negative or errored; an errored strategy is observed exactly like a
negative one; and PcControlService.isPCOnline likewise absorbs probe
errors into false. -/
theorem probe_strategy_semantics (s : StrategyOutcomes) (a b c : Except Unit Bool) :
    robustOnlineCheck ⟨Except.ok true, a, b, c⟩ = true
    ∧ robustOnlineCheck s
        = (stratObserve s.ssh || stratObserve s.pingLib
            || stratObserve s.rdpPort || stratObserve s.sysPing)
    ∧ (robustOnlineCheck s = false ↔
        stratObserve s.ssh = false ∧ stratObserve s.pingLib = false
        ∧ stratObserve s.rdpPort = false ∧ stratObserve s.sysPing = false)
    ∧ robustOnlineCheck { s with pingLib := Except.error () }
        = robustOnlineCheck { s with pingLib := Except.ok false }
    ∧ (∀ e : Except Unit Bool, isPCOnlinePc e = stratObserve e)
    ∧ stratObserve (Except.error ()) = false := by
  refine ⟨?_, ?_, ?_, ?_, ?_, rfl⟩
  · simp [robustOnlineCheck, stratObserve]
  · cases h1 : stratObserve s.ssh <;> cases h2 : stratObserve s.pingLib <;>
      cases h3 : stratObserve s.rdpPort <;> cases h4 : stratObserve s.sysPing <;>
      simp [robustOnlineCheck, h1, h2, h3, h4]
  · cases h1 : stratObserve s.ssh <;> cases h2 : stratObserve s.pingLib <;>
      cases h3 : stratObserve s.rdpPort <;> cases h4 : stratObserve s.sysPing <;>
      simp [robustOnlineCheck, h1, h2, h3, h4]
  · cases h1 : stratObserve s.ssh <;> cases h3 : stratObserve s.rdpPort <;>
      cases h4 : stratObserve s.sysPing <;>
      simp [robustOnlineCheck, stratObserve, h1, h3, h4]
  · intro e; cases e <;> rfl

/-- C7: in both bundle orchestrators the aggregate result always carries
both sub-outcomes, each attributed to its own field; the top-level
success flag is the constant true, never the conjunction of the two; the
pc report is unchanged by the lighting outcome and the lights report is
unchanged by the pc outcome, including when one of them is a rejection. -/
theorem bundle_independent_outcomes (o : Bool) (w : Settled PollResult)
    (L : Settled Bool) (r : PollResult) (b : Bool) (reg : List Light)
    (wol : WakePCResult) (api : String → Except Unit Nat) :
    (arrive o w L).success = true
    ∧ (arrive o w L).lights.success = settledLights L
    ∧ (arrive false w L).pc.success = settledPcSuccess w
    ∧ (arrive o Settled.rejected L).lights = (arrive o (Settled.fulfilled r) L).lights
    ∧ (arrive o w Settled.rejected).pc = (arrive o w (Settled.fulfilled b)).pc
    ∧ (arrive o w L).pc.wasAlreadyOnline = o
    ∧ (arrive o w L).pc.waitTimeSeconds
        = (if o then 0 else (settledPc w).attempts)
    ∧ (arriveAtOffice reg wol api).success = true
    ∧ (arriveAtOffice reg wol api).wolSent = wol
    ∧ (arriveAtOffice reg wol api).lightResults = setGroupState reg "office" api := by
  refine ⟨rfl, rfl, rfl, rfl, rfl, rfl, ?_, rfl, rfl, rfl⟩
  cases o <;> rfl

/-- C8 counterexample: with a registry holding one light outside the
office group and an API that always answers 200, arriveAtOffice invokes
the all-lights fallback but reports the empty group result map, not the
all-lights result map. -/
theorem group_fallback_reports_empty_map :
    (arriveAtOffice [⟨"id1", "desk", some "bedroom", []⟩] ⟨true, 0, 1⟩
        (fun _ => Except.ok 200)).fallbackInvoked = true
    ∧ (arriveAtOffice [⟨"id1", "desk", some "bedroom", []⟩] ⟨true, 0, 1⟩
        (fun _ => Except.ok 200)).lightResults = []
    ∧ setAllLightsState [⟨"id1", "desk", some "bedroom", []⟩]
        (fun _ => Except.ok 200) = [("desk", true)] := by
  refine ⟨?_, ?_, ?_⟩ <;> decide

/-- C8 amended: when the scoped lighting operation addresses zero
devices, arriveAtOffice applies the action to all known lights exactly
once (the fallback call), but its response still reports the original
empty group result map; the all-lights results are computed and
discarded. -/
theorem group_fallback_semantics (reg : List Light) (wol : WakePCResult)
    (api : String → Except Unit Nat)
    (h : getLightsByGroup reg "office" = []) :
    (arriveAtOffice reg wol api).fallbackInvoked = true
    ∧ (arriveAtOffice reg wol api).fallbackResults = some (setAllLightsState reg api)
    ∧ (arriveAtOffice reg wol api).lightResults = [] := by
  have hg : setGroupState reg "office" api = [] := by
    simp [setGroupState, h]
  refine ⟨?_, ?_, ?_⟩ <;> simp [arriveAtOffice, hg]

/-- Witness for C8 amended at a concrete instance. -/
theorem group_fallback_semantics_witness :
    getLightsByGroup [Light.mk "id1" "desk" (some "bedroom") []] "office" = []
    ∧ (arriveAtOffice [Light.mk "id1" "desk" (some "bedroom") []] ⟨false, 0, 0⟩
        (fun _ => Except.error ())).fallbackResults
      = some (setAllLightsState [Light.mk "id1" "desk" (some "bedroom") []]
          (fun _ => Except.error ())) :=
  ⟨by decide,
   (group_fallback_semantics [Light.mk "id1" "desk" (some "bedroom") []] ⟨false, 0, 0⟩
      (fun _ => Except.error ()) (by decide)).2.1⟩

/-- C9 counterexample: a wake-packet transmission error makes
PcControlService.wakePC reject, surfacing the transient dispatch error as
an exception to its caller. -/
theorem wol_error_rejects_wake :
    pcWakePC true (fun _ => Except.ok false) = Except.error () := rfl

/-- C9 amended: transient probe errors in PcControlService's polling
loop are absorbed (the loop depends only on the error-absorbed boolean
of each probe outcome) and a successful dispatch always yields an
ordinary result; WolService.wakePC absorbs a wake-packet dispatch error
into a converged-false result rather than an exception; but a
wake-packet transmission error in PcControlService.wakePC propagates to
the caller as a rejection rather than a converged-false result, and a
ping rejection inside WolService.sleepPC's poll loop is rethrown to its
caller. -/
theorem transient_error_absorption (expected : Bool)
    (timeoutMs intervalMs dispatchMs maxWait : Nat) (cmdOk : Bool)
    (p q : Nat → Except Unit Bool) (wprobe : Nat → Bool)
    (h : ∀ k, isPCOnlinePc (p k) = isPCOnlinePc (q k)) :
    pcWakePC true p = Except.error ()
    ∧ pcWakePC false p = Except.ok (pollForStatusChange true 30000 1000 p)
    ∧ pollForStatusChange expected timeoutMs intervalMs p
        = pollForStatusChange expected timeoutMs intervalMs q
    ∧ pollElapsedMs expected timeoutMs intervalMs p
        = pollElapsedMs expected timeoutMs intervalMs q
    ∧ (wolWakePC false false dispatchMs wprobe maxWait).result.success = false
    ∧ (∀ alive : Nat → Except Unit Bool,
        alive 1 = Except.error () → wolSleepPC true cmdOk alive = Except.error ()) := by
  refine ⟨rfl, rfl, ?_, ?_, rfl, ?_⟩
  · unfold pollForStatusChange
    rw [pollGo_congr expected timeoutMs intervalMs p q h]
  · unfold pollElapsedMs
    rw [pollGo_congr expected timeoutMs intervalMs p q h]
  · intro alive ha
    show wolSleepGo alive (120000 + 1) 0 1 = Except.error ()
    exact wolSleepGo_first_error alive 120000 0 1 (by omega) ha

/-- Witness for C9 amended at a concrete instance. -/
theorem transient_error_absorption_witness :
    (∀ k : Nat, isPCOnlinePc ((fun _ => (Except.error () : Except Unit Bool)) k)
        = isPCOnlinePc ((fun _ => (Except.ok false : Except Unit Bool)) k))
    ∧ ((fun _ => (Except.error () : Except Unit Bool)) 1 = Except.error ())
    ∧ pollForStatusChange true 3000 1000 (fun _ => Except.error ())
        = pollForStatusChange true 3000 1000 (fun _ => Except.ok false)
    ∧ wolSleepPC true true (fun _ => Except.error ()) = Except.error () :=
  ⟨fun _ => rfl, rfl,
   (transient_error_absorption true 3000 1000 0 60000 true (fun _ => Except.error ())
      (fun _ => Except.ok false) (fun _ => false) (fun _ => rfl)).2.2.1,
   (transient_error_absorption true 3000 1000 0 60000 true (fun _ => Except.error ())
      (fun _ => Except.ok false) (fun _ => false) (fun _ => rfl)).2.2.2.2.2
      (fun _ => Except.error ()) rfl⟩

/-- C10: the LifxService registry is keyed by light name: adding keeps
the key list duplicate-free, a later addLight under an existing name
replaces the stored light in place (even with a different id) without
growing the key list, addLight with an empty id leaves the registry
unchanged, setAllLightsState produces exactly one entry per registered
light name in registry order, and a per-light API error is recorded as
false. -/
theorem light_registry_semantics (m : List Light) (l : Light)
    (api : String → Except Unit Nat) (lid : String)
    (hn : (names m).Nodup) :
    (names (addLight m l)).Nodup
    ∧ (l.id ≠ "" → getLight (addLight m l) l.name = some l)
    ∧ (l.id ≠ "" → l.name ∈ names m → names (addLight m l) = names m)
    ∧ (l.id = "" → addLight m l = m)
    ∧ (setAllLightsState m api).map Prod.fst = names m
    ∧ (api lid = Except.error () → setLightStateById api lid = false) := by
  refine ⟨?_, ?_, ?_, ?_, ?_, ?_⟩
  · by_cases h : l.id = ""
    · simpa [addLight, h] using hn
    · simpa [addLight, h] using nodup_names_mapSet l m hn
  · intro h
    simpa [addLight, h] using getLight_mapSet_self l m
  · intro h hm
    simp only [addLight, if_neg h]
    exact names_mapSet_of_mem l m hm
  · intro h
    simp [addLight, h]
  · simp [setAllLightsState, names, List.map_map, Function.comp]
  · intro h
    simp [setLightStateById, h]

/-- Witness for C10 at a concrete instance. -/
theorem light_registry_semantics_witness :
    (names [Light.mk "id1" "desk" (some "office") []]).Nodup
    ∧ (Light.mk "id2" "desk" (none : Option String) []).id ≠ ""
    ∧ getLight (addLight [Light.mk "id1" "desk" (some "office") []]
        (Light.mk "id2" "desk" none [])) "desk"
      = some (Light.mk "id2" "desk" none []) :=
  ⟨by decide, by decide,
   (light_registry_semantics [Light.mk "id1" "desk" (some "office") []]
      (Light.mk "id2" "desk" none []) (fun _ => Except.error ()) "x"
      (by decide)).2.1 (by decide)⟩

end Cabine
